import Mathlib

/-!
Shallow embedding of the CHAIRMAN appointment-scheduling core
(src/core/scheduler.py, src/core/validators.py, src/core/clients.py,
src/core/services.py, src/data/db.py) and proofs of the specified
properties of the scheduler.

Modelling conventions:
* Timestamps are minutes since an epoch, as natural numbers.  SQLite
  compares the stored ISO-8601 strings lexicographically, which for the
  fixed isoformat layout coincides with chronological order, so the
  ordering on `Nat` is a faithful model of the comparisons performed by
  the SQL queries.  The calendar date of a timestamp is its day index
  `t / 1440` (minutes per day), modelling the SQL `date(a.start_time)`.
* The `appointments` table is a list of rows plus the next AUTOINCREMENT
  id (`nextId`); SQLite assigns ids `1, 2, ...` via `lastrowid`.
* `sqlite3` values: `paid` is stored as 0/1 and is modelled as `Bool`;
  the Python coercions `payment_method or ""` and `notes or ""` are the
  identity on strings (an empty string is mapped to the empty string),
  so they are dropped.  `price` (a Python float that no claim touches)
  is carried as an integer number of dollars; it is only moved around,
  never computed with.
* Python exceptions become explicit error values: every mutating
  operation returns a pair of its result (`Except` of the raised error)
  and the state of the table after the call, so that rollback or
  not-yet-mutated state is explicit.
-/

/-! ## Validation layer (src/config.py, src/core/validators.py) -/

/-- ValidationRules.APPOINTMENT_NOTES_MAX_LENGTH from src/config.py line 141. -/
def APPOINTMENT_NOTES_MAX_LENGTH : Nat := 500

/-- Result of a validation check (src/core/validators.py lines 16-24). -/
structure ValidationResult where
  is_valid : Bool
  error_message : String
deriving Repr, DecidableEq

namespace Validator

/-- Validator.validate_notes (src/core/validators.py lines 189-210).
Empty notes are valid (Python falsiness of the empty string); otherwise the
character count must not exceed the configured maximum. -/
def validate_notes (notes : String) : ValidationResult :=
  if notes = "" then
    ValidationResult.mk true ""
  else if notes.length > APPOINTMENT_NOTES_MAX_LENGTH then
    ValidationResult.mk false "Notes cannot exceed 500 characters"
  else
    ValidationResult.mk true ""

end Validator

/-! ## Data model (src/data/db.py, src/data/models.py) -/

/-- A row of the clients table (the columns the scheduling core reads). -/
structure Client where
  id : Nat
  name : String
  phone : String
deriving Repr, DecidableEq

/-- A row of the services table. -/
structure Service where
  id : Nat
  name : String
  price : Int
  duration_minutes : Nat
  buffer_minutes : Nat
deriving Repr, DecidableEq

/-- A row of the appointments table. -/
structure Appointment where
  id : Nat
  client_id : Nat
  service_id : Nat
  start_time : Nat
  end_time : Nat
  paid : Bool
  payment_method : String
  notes : String
deriving Repr, DecidableEq

/-- The appointments table: rows plus the next AUTOINCREMENT id. -/
structure Store where
  appointments : List Appointment
  nextId : Nat
deriving Repr, DecidableEq

/-- A freshly created appointments table; SQLite assigns 1 as the first rowid. -/
def emptyStore : Store := Store.mk [] 1

/-- Scheduler exceptions (src/core/scheduler.py lines 18-30).  The
time-slot error carries the bounds of the rejected window (the source
formats them into the message). -/
inductive SchedulerErr where
  | invalidAppointment (msg : String)
  | timeSlotUnavailable (s e : Nat)
deriving Repr, DecidableEq

/-- ClientError (src/core/clients.py lines 16-18). -/
inductive ClientErr where
  | clientError (msg : String)
deriving Repr, DecidableEq

/-- ServiceError (src/core/services.py lines 16-18). -/
inductive ServiceErr where
  | serviceError (msg : String)
deriving Repr, DecidableEq

/-! ## The Scheduler (src/core/scheduler.py) -/

/-- The WHERE clause of the availability query (src/core/scheduler.py
lines 74 and 79): a row conflicts with the window from s to e iff
NOT (end_time <= s OR start_time >= e). -/
def conflictsWith (a : Appointment) (s e : Nat) : Bool :=
  !(decide (a.end_time ≤ s) || decide (a.start_time ≥ e))

/-- Python truthiness of the optional exclude_appointment_id argument:
the branch at src/core/scheduler.py line 71 tests the value itself, so
both None and 0 select the non-excluding query. -/
def truthy : Option Nat → Bool
  | none => false
  | some n => n != 0

/-- SELECT duration_minutes, buffer_minutes FROM services WHERE id=?
followed by fetchone (src/core/scheduler.py lines 132-136): the first
row with the given id, if any. -/
def lookupService (services : List Service) (service_id : Nat) : Option Service :=
  services.find? (fun v => v.id == service_id)

namespace Scheduler

/-- Scheduler.is_time_available (src/core/scheduler.py lines 50-94):
counts the rows conflicting with the window (excluding the given row id
when the argument is truthy) and reports availability iff the count is
zero.  A pure read: the table is not changed. -/
def is_time_available (st : Store) (s e : Nat) (exclude_appointment_id : Option Nat) : Bool :=
  let conflicting :=
    if truthy exclude_appointment_id then
      st.appointments.filter
        (fun a => a.id != exclude_appointment_id.getD 0 && conflictsWith a s e)
    else
      st.appointments.filter (fun a => conflictsWith a s e)
  conflicting.length == 0

/-- Scheduler.book (src/core/scheduler.py lines 96-186), in source order:
validate the notes, resolve the service, compute the end time as
start + duration + buffer, check availability, then insert and return
the new rowid.  Every failing branch raises before the INSERT runs, so
the table is returned unchanged there. -/
def book (services : List Service) (st : Store) (client_id service_id : Nat)
    (start : Nat) (paid : Bool) (payment_method : String) (notes : String) :
    Except SchedulerErr Nat × Store :=
  let notes_validation := Validator.validate_notes notes
  if notes_validation.is_valid = false then
    (Except.error (SchedulerErr.invalidAppointment notes_validation.error_message), st)
  else
    match lookupService services service_id with
    | none =>
        (Except.error (SchedulerErr.invalidAppointment
          ("Service with ID " ++ toString service_id ++ " does not exist")), st)
    | some service_row =>
        let endT := start + (service_row.duration_minutes + service_row.buffer_minutes)
        if is_time_available st start endT none = false then
          (Except.error (SchedulerErr.timeSlotUnavailable start endT), st)
        else
          let a : Appointment :=
            Appointment.mk st.nextId client_id service_id start endT paid payment_method notes
          (Except.ok st.nextId, Store.mk (st.appointments ++ [a]) (st.nextId + 1))

/-- The denormalized projection returned by the joined queries
(src/core/scheduler.py lines 240-262 and 385-402).  The duplicated
display aliases of the source dict (client and client_name, service and
service_name) are kept once. -/
structure AppointmentView where
  appointment_id : Nat
  start_time : Nat
  end_time : Nat
  paid : Bool
  payment_method : String
  notes : String
  client_id : Nat
  client_name : String
  client_phone : String
  service_id : Nat
  service_name : String
  service_price : Int
  service_duration : Nat
  service_buffer : Nat
deriving Repr, DecidableEq

/-- The inner joins of the listing queries (src/core/scheduler.py lines
231-233 and 375-377): an appointment row yields an output row only when
both the client and the service it references exist; otherwise the join
silently drops it. -/
def joinRow (clients : List Client) (services : List Service) (a : Appointment) :
    Option AppointmentView :=
  match clients.find? (fun c => c.id == a.client_id),
        services.find? (fun v => v.id == a.service_id) with
  | some c, some v =>
      some (AppointmentView.mk a.id a.start_time a.end_time a.paid a.payment_method a.notes
        c.id c.name c.phone v.id v.name v.price v.duration_minutes v.buffer_minutes)
  | _, _ => none

/-- Scheduler.list_for_date (src/core/scheduler.py lines 188-269):
appointments whose start falls on the given day, joined with clients and
services, ordered by start_time ascending.  Restricting and ordering the
appointment rows before the join gives the same multiset of output rows
as the SQL plan, since the join looks only at the row itself. -/
def list_for_date (clients : List Client) (services : List Service) (st : Store)
    (day : Nat) : List AppointmentView :=
  (List.insertionSort (fun a b => a.start_time ≤ b.start_time)
      (st.appointments.filter (fun a => a.start_time / 1440 == day))).filterMap
    (joinRow clients services)

/-- Scheduler.toggle_paid (src/core/scheduler.py lines 271-313): read the
paid flag of the row (fetchone takes the first matching row), flip it,
and UPDATE every row with that id; returns the new value.  A missing id
raises InvalidAppointmentError and leaves the table unchanged. -/
def toggle_paid (st : Store) (appointment_id : Nat) : Except SchedulerErr Bool × Store :=
  match st.appointments.find? (fun a => a.id == appointment_id) with
  | none =>
      (Except.error (SchedulerErr.invalidAppointment
        ("Appointment with ID " ++ toString appointment_id ++ " does not exist")), st)
  | some row =>
      let new_paid_status := !row.paid
      (Except.ok new_paid_status,
       Store.mk
         (st.appointments.map
           (fun b => if b.id == appointment_id then { b with paid := new_paid_status } else b))
         st.nextId)

/-- Scheduler.delete (src/core/scheduler.py lines 315-345): check the row
exists, then DELETE every row with that id; a missing id raises
InvalidAppointmentError and leaves the table unchanged. -/
def delete (st : Store) (appointment_id : Nat) : Except SchedulerErr Unit × Store :=
  if st.appointments.any (fun a => a.id == appointment_id) then
    (Except.ok (),
     Store.mk (st.appointments.filter (fun a => !(a.id == appointment_id))) st.nextId)
  else
    (Except.error (SchedulerErr.invalidAppointment
      ("Appointment with ID " ++ toString appointment_id ++ " does not exist")), st)

/-- Scheduler.get_appointment (src/core/scheduler.py lines 347-406): the
single-row variant of the joined projection; returns an absent value
rather than raising when the id is missing or the join drops the row. -/
def get_appointment (clients : List Client) (services : List Service) (st : Store)
    (appointment_id : Nat) : Option AppointmentView :=
  (st.appointments.find? (fun a => a.id == appointment_id)).bind (joinRow clients services)

/-- The stored paid flag of a row, read the way the source reads it
(SELECT paid ... fetchone: the first row with the id). -/
def get_paid (st : Store) (appointment_id : Nat) : Option Bool :=
  (st.appointments.find? (fun a => a.id == appointment_id)).map Appointment.paid

end Scheduler

namespace ClientService

/-- ClientService.delete (src/core/clients.py lines 233-273): refuse to
delete a client that is referenced by any appointment, otherwise DELETE
the client row and return True. -/
def delete (st : Store) (clients : List Client) (client_id : Nat) :
    Except ClientErr Bool × List Client :=
  let appointment_count := (st.appointments.filter (fun a => a.client_id == client_id)).length
  if appointment_count > 0 then
    (Except.error (ClientErr.clientError
      ("Cannot delete client with existing appointments. This client has "
        ++ toString appointment_count ++ " appointment(s).")), clients)
  else
    (Except.ok true, clients.filter (fun c => !(c.id == client_id)))

end ClientService

namespace ServiceManager

/-- ServiceManager.delete (src/core/services.py lines 258-299): refuse to
delete a service that is referenced by any appointment, otherwise DELETE
the service row and return True. -/
def delete (st : Store) (services : List Service) (service_id : Nat) :
    Except ServiceErr Bool × List Service :=
  let appointment_count := (st.appointments.filter (fun a => a.service_id == service_id)).length
  if appointment_count > 0 then
    (Except.error (ServiceErr.serviceError
      ("Cannot delete service with existing appointments. This service has "
        ++ toString appointment_count ++ " appointment(s).")), services)
  else
    (Except.ok true, services.filter (fun v => !(v.id == service_id)))

end ServiceManager

/-! ## The whole application as a transition system

The GUI layer mutates the three tables exclusively through the
operations embedded above (spec section 5: the store is never bypassed).
Client and service creation (ClientService.create, ServiceManager.create)
are abstracted to the insertion of a row with a fresh nonzero id — the
AUTOINCREMENT columns of src/data/db.py only ever produce ids that are
positive and distinct from all existing ones — and the update operations
(ClientService.update, ServiceManager.update) to an arbitrary rewrite of
the rows that preserves every id, since their UPDATE statements never
touch the id column.  This over-approximates the behaviour of the source
(more states are reachable in the model than in the program), so every
invariant proved over all reachable states also holds for the program. -/

/-- The three tables of src/data/db.py that the scheduling core touches. -/
structure SysState where
  clients : List Client
  services : List Service
  store : Store
deriving Repr, DecidableEq

/-- The state after init_db on a fresh database: all tables empty. -/
def initState : SysState := SysState.mk [] [] emptyStore

/-- One call of a mutating operation of the application. -/
inductive Step : SysState → SysState → Prop
  | bookStep (s : SysState) (cid sid start : Nat) (paid : Bool) (pm notes : String) :
      Step s (SysState.mk s.clients s.services
        (Scheduler.book s.services s.store cid sid start paid pm notes).2)
  | toggleStep (s : SysState) (x : Nat) :
      Step s (SysState.mk s.clients s.services (Scheduler.toggle_paid s.store x).2)
  | deleteApptStep (s : SysState) (x : Nat) :
      Step s (SysState.mk s.clients s.services (Scheduler.delete s.store x).2)
  | createClientStep (s : SysState) (c : Client)
      (hfresh : ∀ c₀ ∈ s.clients, c₀.id ≠ c.id) (hpos : c.id ≠ 0) :
      Step s (SysState.mk (s.clients ++ [c]) s.services s.store)
  | createServiceStep (s : SysState) (v : Service)
      (hfresh : ∀ v₀ ∈ s.services, v₀.id ≠ v.id) (hpos : v.id ≠ 0) :
      Step s (SysState.mk s.clients (s.services ++ [v]) s.store)
  | clientDeleteStep (s : SysState) (x : Nat) :
      Step s (SysState.mk (ClientService.delete s.store s.clients x).2 s.services s.store)
  | serviceDeleteStep (s : SysState) (x : Nat) :
      Step s (SysState.mk s.clients (ServiceManager.delete s.store s.services x).2 s.store)
  | updateClientsStep (s : SysState) (f : Client → Client)
      (hf : ∀ c, (f c).id = c.id) :
      Step s (SysState.mk (s.clients.map f) s.services s.store)
  | updateServicesStep (s : SysState) (g : Service → Service)
      (hg : ∀ v, (g v).id = v.id) :
      Step s (SysState.mk s.clients (s.services.map g) s.store)

/-- States reachable from the fresh database through the application. -/
inductive Reachable : SysState → Prop
  | init : Reachable initState
  | step {s t : SysState} : Reachable s → Step s t → Reachable t

/-- The arguments of one booking request. -/
structure BookRequest where
  client_id : Nat
  service_id : Nat
  start : Nat
  paid : Bool
  payment_method : String
  notes : String
deriving Repr, DecidableEq

/-- Run a sequence of booking calls against the store; a failing call
leaves the store as it was (the source raises before inserting). -/
def runBooks (services : List Service) (st : Store) : List BookRequest → Store
  | [] => st
  | r :: rs =>
      runBooks services
        (Scheduler.book services st r.client_id r.service_id r.start
          r.paid r.payment_method r.notes).2 rs

/-- The no-overlap invariant of spec section 3: no two distinct stored
appointments have overlapping half-open intervals. -/
def NoOverlap (st : Store) : Prop :=
  ∀ A ∈ st.appointments, ∀ B ∈ st.appointments, A ≠ B →
    ¬(A.start_time < B.end_time ∧ B.start_time < A.end_time)

/-- Well-formedness of the appointments table: the next AUTOINCREMENT id
is positive and strictly beyond every stored id (so every stored id is a
positive number that lastrowid has already produced). -/
def StoreWF (st : Store) : Prop :=
  1 ≤ st.nextId ∧ ∀ a ∈ st.appointments, 1 ≤ a.id ∧ a.id < st.nextId

/-- Referential integrity of the service column: every stored appointment
references an existing service row. -/
def ServiceIntegrity (s : SysState) : Prop :=
  ∀ a ∈ s.store.appointments, ∃ v ∈ s.services, v.id = a.service_id

/-! ## Lemmas about the availability check -/

theorem conflictsWith_iff (a : Appointment) (s e : Nat) :
    conflictsWith a s e = true ↔ s < a.end_time ∧ a.start_time < e := by
  simp [conflictsWith]

theorem conflictsWith_eq_false_iff (a : Appointment) (s e : Nat) :
    conflictsWith a s e = false ↔ ¬(s < a.end_time ∧ a.start_time < e) := by
  rw [← Bool.not_eq_true, conflictsWith_iff]

theorem is_time_available_none_iff (st : Store) (s e : Nat) :
    Scheduler.is_time_available st s e none = true ↔
      ∀ a ∈ st.appointments, conflictsWith a s e = false := by
  unfold Scheduler.is_time_available
  simp [truthy, List.length_eq_zero, List.filter_eq_nil_iff]

theorem is_time_available_some_iff (st : Store) (s e x : Nat) (hx : x ≠ 0) :
    Scheduler.is_time_available st s e (some x) = true ↔
      ∀ a ∈ st.appointments, conflictsWith a s e = true → a.id = x := by
  unfold Scheduler.is_time_available
  have hx₁ : truthy (some x) = true := by simp [truthy, hx]
  simp only [hx₁, if_true, Option.getD_some, beq_iff_eq, List.length_eq_zero,
    List.filter_eq_nil_iff]
  constructor
  · intro h a ha hc
    have h₂ := h a ha
    rw [Bool.and_eq_true] at h₂
    by_contra hne
    exact h₂ ⟨by simpa [bne_iff_ne] using hne, hc⟩
  · intro h a ha
    rw [Bool.and_eq_true]
    rintro ⟨h₁, h₂⟩
    rw [bne_iff_ne] at h₁
    exact h₁ (h a ha h₂)

theorem not_available_of_conflict {st : Store} {s e : Nat} {a : Appointment}
    (ha : a ∈ st.appointments) (hc : conflictsWith a s e = true) :
    Scheduler.is_time_available st s e none = false := by
  cases h : Scheduler.is_time_available st s e none with
  | false => rfl
  | true =>
      have := (is_time_available_none_iff st s e).1 h a ha
      rw [hc] at this
      cases this

/-! ## Case analysis of Scheduler.book -/

theorem book_notes_invalid {notes : String}
    (services : List Service) (st : Store) (cid sid start : Nat) (paid : Bool) (pm : String)
    (h : (Validator.validate_notes notes).is_valid = false) :
    Scheduler.book services st cid sid start paid pm notes =
      (Except.error (SchedulerErr.invalidAppointment
        (Validator.validate_notes notes).error_message), st) := by
  unfold Scheduler.book
  simp [h]

theorem book_service_missing {services : List Service} {sid : Nat} {notes : String}
    (st : Store) (cid start : Nat) (paid : Bool) (pm : String)
    (h₁ : (Validator.validate_notes notes).is_valid = true)
    (h₂ : lookupService services sid = none) :
    Scheduler.book services st cid sid start paid pm notes =
      (Except.error (SchedulerErr.invalidAppointment
        ("Service with ID " ++ toString sid ++ " does not exist")), st) := by
  unfold Scheduler.book
  simp [h₁, h₂]

theorem book_slot_unavailable {services : List Service} {sid : Nat} {notes : String}
    {v : Service} {st : Store} {start : Nat} (cid : Nat) (paid : Bool) (pm : String)
    (h₁ : (Validator.validate_notes notes).is_valid = true)
    (h₂ : lookupService services sid = some v)
    (h₃ : Scheduler.is_time_available st start
      (start + (v.duration_minutes + v.buffer_minutes)) none = false) :
    Scheduler.book services st cid sid start paid pm notes =
      (Except.error (SchedulerErr.timeSlotUnavailable start
        (start + (v.duration_minutes + v.buffer_minutes))), st) := by
  unfold Scheduler.book
  simp [h₁, h₂, h₃]

theorem book_ok (services : List Service) (st : Store) (cid sid start : Nat)
    (paid : Bool) (pm notes : String) {v : Service}
    (h₁ : (Validator.validate_notes notes).is_valid = true)
    (h₂ : lookupService services sid = some v)
    (h₃ : Scheduler.is_time_available st start
      (start + (v.duration_minutes + v.buffer_minutes)) none = true) :
    Scheduler.book services st cid sid start paid pm notes =
      (Except.ok st.nextId,
       Store.mk
         (st.appointments ++
           [Appointment.mk st.nextId cid sid start
             (start + (v.duration_minutes + v.buffer_minutes)) paid pm notes])
         (st.nextId + 1)) := by
  unfold Scheduler.book
  simp [h₁, h₂, h₃]

theorem book_cases (services : List Service) (st : Store) (cid sid start : Nat)
    (paid : Bool) (pm notes : String) :
    ((Scheduler.book services st cid sid start paid pm notes).2 = st ∧
      ∃ er, (Scheduler.book services st cid sid start paid pm notes).1 = Except.error er) ∨
    (∃ v, lookupService services sid = some v ∧
      Scheduler.is_time_available st start
        (start + (v.duration_minutes + v.buffer_minutes)) none = true ∧
      Scheduler.book services st cid sid start paid pm notes =
        (Except.ok st.nextId,
         Store.mk
           (st.appointments ++
             [Appointment.mk st.nextId cid sid start
               (start + (v.duration_minutes + v.buffer_minutes)) paid pm notes])
           (st.nextId + 1))) := by
  by_cases hval : (Validator.validate_notes notes).is_valid = false
  · rw [book_notes_invalid services st cid sid start paid pm hval]
    exact Or.inl ⟨rfl, _, rfl⟩
  · rw [Bool.not_eq_false] at hval
    cases hv : lookupService services sid with
    | none =>
        rw [book_service_missing st cid start paid pm hval hv]
        exact Or.inl ⟨rfl, _, rfl⟩
    | some v =>
        by_cases hav : Scheduler.is_time_available st start
            (start + (v.duration_minutes + v.buffer_minutes)) none = false
        · rw [book_slot_unavailable cid paid pm hval hv hav]
          exact Or.inl ⟨rfl, _, rfl⟩
        · rw [Bool.not_eq_false] at hav
          exact Or.inr ⟨v, rfl, hav, book_ok services st cid sid start paid pm notes hval hv hav⟩

/-! ## Preservation of the no-overlap invariant -/

theorem noOverlap_emptyStore : NoOverlap emptyStore := by
  intro A hA
  exact absurd hA (List.not_mem_nil A)

theorem book_preserves_noOverlap (services : List Service) (st : Store)
    (cid sid start : Nat) (paid : Bool) (pm notes : String) (h : NoOverlap st) :
    NoOverlap (Scheduler.book services st cid sid start paid pm notes).2 := by
  rcases book_cases services st cid sid start paid pm notes with ⟨hst, -⟩ | ⟨v, -, hav, heq⟩
  · rw [hst]; exact h
  · rw [heq]
    have hconf : ∀ b ∈ st.appointments,
        ¬(start < b.end_time ∧
          b.start_time < start + (v.duration_minutes + v.buffer_minutes)) := by
      intro b hb
      exact (conflictsWith_eq_false_iff b start _).1
        ((is_time_available_none_iff st start _).1 hav b hb)
    intro A hA B hB hAB
    simp only [List.mem_append, List.mem_singleton] at hA hB
    rcases hA with hA | hA <;> rcases hB with hB | hB
    · exact h A hA B hB hAB
    · subst hB
      intro hcon
      exact hconf A hA ⟨hcon.2, hcon.1⟩
    · subst hA
      intro hcon
      exact hconf B hB ⟨hcon.1, hcon.2⟩
    · subst hA
      subst hB
      exact absurd rfl hAB

theorem runBooks_preserves_noOverlap (services : List Service) (reqs : List BookRequest) :
    ∀ st : Store, NoOverlap st → NoOverlap (runBooks services st reqs) := by
  induction reqs with
  | nil => intro st h; exact h
  | cons r rs ih =>
      intro st h
      exact ih _ (book_preserves_noOverlap services st r.client_id r.service_id r.start
        r.paid r.payment_method r.notes h)

/-- Claim C1: starting from the empty appointment store, for every sequence
of book calls (each successful call inserts its appointment, each failing
call leaves the store unchanged), every pair of distinct appointments A and
B left in the store satisfies
NOT (A.start_time < B.end_time AND B.start_time < A.end_time). -/
theorem C1_no_overlap_invariant (services : List Service) (reqs : List BookRequest) :
    NoOverlap (runBooks services emptyStore reqs) :=
  runBooks_preserves_noOverlap services reqs emptyStore noOverlap_emptyStore

/-- Concrete instance of claim C1: three booking requests, the middle two
conflicting, leave a store whose appointments are pairwise non-overlapping. -/
theorem C1_no_overlap_invariant_witness :
    NoOverlap (runBooks [Service.mk 1 "Cut" 35 30 0] emptyStore
      [BookRequest.mk 1 1 600 false "" "", BookRequest.mk 2 1 615 false "" "",
       BookRequest.mk 3 1 630 false "" ""]) :=
  C1_no_overlap_invariant [Service.mk 1 "Cut" 35 30 0]
    [BookRequest.mk 1 1 600 false "" "", BookRequest.mk 2 1 615 false "" "",
     BookRequest.mk 3 1 630 false "" ""]

/-- Claim C2: boundary adjacency is not a conflict.  For every store
containing an appointment a (interval up to a.end_time), the availability
check for the window starting exactly at a.end_time succeeds whenever no
other appointment overlaps that window: the overlap test of the source is
NOT (existing.end_time <= query.start OR existing.start_time >= query.end),
so an appointment that merely touches the query window at its end point is
not counted as a conflict. -/
theorem C2_boundary_adjacency (st : Store) (a : Appointment) (e₂ : Nat)
    (ha : a ∈ st.appointments)
    (hothers : ∀ b ∈ st.appointments, b ≠ a →
      ¬(a.end_time < b.end_time ∧ b.start_time < e₂)) :
    Scheduler.is_time_available st a.end_time e₂ none = true := by
  rw [is_time_available_none_iff]
  intro b hb
  rw [conflictsWith_eq_false_iff]
  by_cases hba : b = a
  · subst hba
    intro hcon
    exact absurd hcon.1 (lt_irrefl _)
  · exact hothers b hb hba

/-- Concrete instance of claim C2: after booking the half-open window from
10:00 to 10:30 (minutes 600 to 630), the adjacent window from 10:30 to
11:00 is reported available and booking it for another client succeeds. -/
theorem C2_boundary_adjacency_witness :
    (Scheduler.book [Service.mk 1 "Cut" 35 30 0] emptyStore 1 1 600 false "" "").1 =
      Except.ok 1 ∧
    Scheduler.is_time_available
      (Scheduler.book [Service.mk 1 "Cut" 35 30 0] emptyStore 1 1 600 false "" "").2
      630 660 none = true ∧
    (Scheduler.book [Service.mk 1 "Cut" 35 30 0]
      (Scheduler.book [Service.mk 1 "Cut" 35 30 0] emptyStore 1 1 600 false "" "").2
      2 1 630 false "" "").1 = Except.ok 2 :=
  ⟨rfl,
   C2_boundary_adjacency
     (Scheduler.book [Service.mk 1 "Cut" 35 30 0] emptyStore 1 1 600 false "" "").2
     (Appointment.mk 1 1 1 600 630 false "" "") 660 (by decide) (by decide),
   rfl⟩

/-- Claim C3: end-time arithmetic.  Every successful book call whose
service resolves to duration d and buffer b stores an appointment with the
returned id whose start is the requested start and whose end is
start + d + b. -/
theorem C3_end_time_arithmetic (services : List Service) (st : Store)
    (cid sid start : Nat) (paid : Bool) (pm notes : String) (i : Nat) (v : Service)
    (hv : lookupService services sid = some v)
    (hok : (Scheduler.book services st cid sid start paid pm notes).1 = Except.ok i) :
    ∃ a ∈ (Scheduler.book services st cid sid start paid pm notes).2.appointments,
      a.id = i ∧ a.start_time = start ∧
      a.end_time = start + v.duration_minutes + v.buffer_minutes := by
  rcases book_cases services st cid sid start paid pm notes with ⟨-, er, herr⟩ | ⟨w, hw, -, heq⟩
  · rw [herr] at hok
    cases hok
  · have hwv : w = v := by
      rw [hv] at hw
      injection hw with h
      exact h.symm
    subst hwv
    rw [heq] at hok ⊢
    have hi : i = st.nextId := by
      simpa using hok.symm
    subst hi
    refine ⟨Appointment.mk st.nextId cid sid start
      (start + (w.duration_minutes + w.buffer_minutes)) paid pm notes,
      List.mem_append_right _ (List.mem_singleton_self _), rfl, rfl, ?_⟩
    simp [Nat.add_assoc]

/-- Concrete instance of claim C3: a service with duration 30 and buffer 15
booked at 09:00 (minute 540) stores end time 09:45 (minute 585). -/
theorem C3_end_time_arithmetic_witness :
    lookupService [Service.mk 2 "Color" 80 30 15] 2 = some (Service.mk 2 "Color" 80 30 15) ∧
    (Scheduler.book [Service.mk 2 "Color" 80 30 15] emptyStore 1 2 540 false "" "").1 =
      Except.ok 1 ∧
    ∃ a ∈ (Scheduler.book [Service.mk 2 "Color" 80 30 15] emptyStore
        1 2 540 false "" "").2.appointments,
      a.id = 1 ∧ a.start_time = 540 ∧ a.end_time = 585 :=
  ⟨rfl, rfl,
   C3_end_time_arithmetic [Service.mk 2 "Color" 80 30 15] emptyStore 1 2 540 false "" "" 1
     (Service.mk 2 "Color" 80 30 15) rfl rfl⟩

/-- Claim C4: conflict rejection is atomic.  Whenever a book call passes
notes validation and service resolution but its computed window overlaps a
stored appointment, the call returns the time-slot-unavailable error
carrying the window bounds, and the returned store is exactly the input
store (the INSERT never ran). -/
theorem C4_conflict_rejected_atomically (services : List Service) (st : Store)
    (cid sid start : Nat) (paid : Bool) (pm notes : String) (v : Service) (a : Appointment)
    (h₁ : (Validator.validate_notes notes).is_valid = true)
    (h₂ : lookupService services sid = some v)
    (ha : a ∈ st.appointments)
    (hover : start < a.end_time ∧
      a.start_time < start + v.duration_minutes + v.buffer_minutes) :
    Scheduler.book services st cid sid start paid pm notes =
      (Except.error (SchedulerErr.timeSlotUnavailable start
        (start + v.duration_minutes + v.buffer_minutes)), st) := by
  have hassoc : start + v.duration_minutes + v.buffer_minutes =
      start + (v.duration_minutes + v.buffer_minutes) := Nat.add_assoc _ _ _
  have hc : conflictsWith a start (start + (v.duration_minutes + v.buffer_minutes)) = true := by
    rw [conflictsWith_iff]
    exact ⟨hover.1, hassoc ▸ hover.2⟩
  rw [hassoc]
  exact book_slot_unavailable cid paid pm h₁ h₂ (not_available_of_conflict ha hc)

/-- Concrete instance of claim C4: after booking the window from 10:00 to
11:00 (minutes 600 to 660), an attempt at 10:30 with a 30-minute service
fails with the conflict error for the window 10:30 to 11:00 and the store
still holds exactly the one original appointment. -/
theorem C4_conflict_rejected_atomically_witness :
    (Appointment.mk 1 1 3 600 660 false "" "") ∈
      (Scheduler.book [Service.mk 1 "Cut" 35 30 0, Service.mk 3 "Long" 50 60 0] emptyStore
        1 3 600 false "" "").2.appointments ∧
    Scheduler.book [Service.mk 1 "Cut" 35 30 0, Service.mk 3 "Long" 50 60 0]
      (Scheduler.book [Service.mk 1 "Cut" 35 30 0, Service.mk 3 "Long" 50 60 0] emptyStore
        1 3 600 false "" "").2 1 1 630 false "" "" =
      (Except.error (SchedulerErr.timeSlotUnavailable 630 660),
       (Scheduler.book [Service.mk 1 "Cut" 35 30 0, Service.mk 3 "Long" 50 60 0] emptyStore
         1 3 600 false "" "").2) ∧
    ((Scheduler.book [Service.mk 1 "Cut" 35 30 0, Service.mk 3 "Long" 50 60 0] emptyStore
        1 3 600 false "" "").2).appointments.length = 1 :=
  ⟨by decide,
   C4_conflict_rejected_atomically
     [Service.mk 1 "Cut" 35 30 0, Service.mk 3 "Long" 50 60 0]
     (Scheduler.book [Service.mk 1 "Cut" 35 30 0, Service.mk 3 "Long" 50 60 0] emptyStore
       1 3 600 false "" "").2
     1 1 630 false "" "" (Service.mk 1 "Cut" 35 30 0) (Appointment.mk 1 1 3 600 660 false "" "")
     rfl rfl (by decide) (by decide),
   rfl⟩

set_option maxRecDepth 8192 in
/-- Counterexample to claim C5: the source validates the notes before it
resolves the service (src/core/scheduler.py line 126 versus line 132), so a
book call with a nonexistent service id and over-long notes fails with the
notes-length InvalidAppointmentError, not with the missing-service one that
the claim requires. -/
theorem C5_counterexample :
    (String.mk (List.replicate 501 'a')).length > APPOINTMENT_NOTES_MAX_LENGTH ∧
    lookupService [] 1 = none ∧
    Scheduler.book [] emptyStore 1 1 600 false "" (String.mk (List.replicate 501 'a')) =
      (Except.error (SchedulerErr.invalidAppointment "Notes cannot exceed 500 characters"),
       emptyStore) ∧
    SchedulerErr.invalidAppointment "Notes cannot exceed 500 characters" ≠
      SchedulerErr.invalidAppointment "Service with ID 1 does not exist" := by
  refine ⟨by decide, rfl, ?_, by decide⟩
  have h : (Validator.validate_notes (String.mk (List.replicate 501 'a'))).is_valid = false := by
    decide
  rw [book_notes_invalid [] emptyStore 1 1 600 false "" h]
  rfl

/-- Claim C5 as amended: notes validation runs before service resolution.
A book call with a nonexistent service id fails with the missing-service
InvalidAppointmentError when the notes pass validation; when the notes are
invalid as well, the notes error wins.  Either way the error is an
InvalidAppointmentError and the store is returned unchanged. -/
theorem C5_validation_order_amended (services : List Service) (st : Store)
    (cid sid start : Nat) (paid : Bool) (pm notes : String)
    (hmiss : lookupService services sid = none) :
    ((Validator.validate_notes notes).is_valid = true →
      Scheduler.book services st cid sid start paid pm notes =
        (Except.error (SchedulerErr.invalidAppointment
          ("Service with ID " ++ toString sid ++ " does not exist")), st)) ∧
    ((Validator.validate_notes notes).is_valid = false →
      Scheduler.book services st cid sid start paid pm notes =
        (Except.error (SchedulerErr.invalidAppointment
          (Validator.validate_notes notes).error_message), st)) :=
  ⟨fun hval => book_service_missing st cid start paid pm hval hmiss,
   fun hval => book_notes_invalid services st cid sid start paid pm hval⟩

/-- Concrete instance of the amended claim C5: with valid notes and a
nonexistent service, booking fails with the missing-service error and the
empty store is unchanged. -/
theorem C5_validation_order_amended_witness :
    lookupService [] 1 = none ∧
    (Validator.validate_notes "").is_valid = true ∧
    Scheduler.book [] emptyStore 1 1 600 false "" "" =
      (Except.error (SchedulerErr.invalidAppointment "Service with ID 1 does not exist"),
       emptyStore) :=
  ⟨rfl, rfl, (C5_validation_order_amended [] emptyStore 1 1 600 false "" "" rfl).1 rfl⟩

/-- Claim C6: a book call with a nonexistent service id always fails with
an InvalidAppointmentError (never the conflict error) and returns the store
unchanged, whatever the availability of the requested time. -/
theorem C6_invalid_service_rejected (services : List Service) (st : Store)
    (cid sid start : Nat) (paid : Bool) (pm notes : String)
    (hmiss : lookupService services sid = none) :
    ∃ msg, Scheduler.book services st cid sid start paid pm notes =
      (Except.error (SchedulerErr.invalidAppointment msg), st) := by
  by_cases hval : (Validator.validate_notes notes).is_valid = false
  · exact ⟨_, book_notes_invalid services st cid sid start paid pm hval⟩
  · rw [Bool.not_eq_false] at hval
    exact ⟨_, book_service_missing st cid start paid pm hval hmiss⟩

/-- Concrete instance of claim C6: booking service id 9 against a catalog
that lacks it fails invalid even though the store is empty and the time is
free. -/
theorem C6_invalid_service_rejected_witness :
    lookupService [Service.mk 1 "Cut" 35 30 0] 9 = none ∧
    ∃ msg, Scheduler.book [Service.mk 1 "Cut" 35 30 0] emptyStore 1 9 600 false "" "ok" =
      (Except.error (SchedulerErr.invalidAppointment msg), emptyStore) :=
  ⟨rfl, C6_invalid_service_rejected [Service.mk 1 "Cut" 35 30 0] emptyStore 1 9 600 false ""
    "ok" rfl⟩

/-! ## Shape lemmas for the mutating operations -/

theorem toggle_store_shape (st : Store) (x : Nat) :
    (Scheduler.toggle_paid st x).2 = st ∨
    ∃ v : Bool, (Scheduler.toggle_paid st x).2 =
      Store.mk (st.appointments.map
        (fun b => if b.id == x then { b with paid := v } else b)) st.nextId := by
  unfold Scheduler.toggle_paid
  cases hf : st.appointments.find? (fun a => a.id == x) with
  | none => exact Or.inl rfl
  | some row => exact Or.inr ⟨!row.paid, rfl⟩

theorem delete_store_shape (st : Store) (x : Nat) :
    (Scheduler.delete st x).2 = st ∨
    (Scheduler.delete st x).2 =
      Store.mk (st.appointments.filter (fun a => !(a.id == x))) st.nextId := by
  unfold Scheduler.delete
  split
  · exact Or.inr rfl
  · exact Or.inl rfl

theorem mem_map_setPaid {l : List Appointment} {x : Nat} {v : Bool} {a : Appointment}
    (ha : a ∈ l.map (fun b => if b.id == x then { b with paid := v } else b)) :
    ∃ b ∈ l, a.id = b.id ∧ a.client_id = b.client_id ∧ a.service_id = b.service_id := by
  obtain ⟨b, hb, hab⟩ := List.mem_map.1 ha
  refine ⟨b, hb, ?_⟩
  by_cases h : (b.id == x) = true
  · rw [if_pos h] at hab
    rw [← hab]
    exact ⟨rfl, rfl, rfl⟩
  · rw [if_neg h] at hab
    rw [← hab]
    exact ⟨rfl, rfl, rfl⟩

theorem serviceManager_delete_shape (st : Store) (services : List Service) (x : Nat) :
    (ServiceManager.delete st services x).2 = services ∨
    ((∀ a ∈ st.appointments, a.service_id ≠ x) ∧
     (ServiceManager.delete st services x).2 = services.filter (fun v => !(v.id == x))) := by
  unfold ServiceManager.delete
  by_cases h : (st.appointments.filter (fun a => a.service_id == x)).length > 0
  · exact Or.inl (by simp [h])
  · refine Or.inr ⟨?_, by simp [h]⟩
    intro a ha hax
    exact h (List.length_pos_of_mem (List.mem_filter.2 ⟨ha, by simp [hax]⟩))

/-! ## Invariants of the reachable states -/

theorem storeWF_emptyStore : StoreWF emptyStore := by
  constructor
  · exact Nat.le_refl 1
  · intro a ha
    cases ha


theorem book_preserves_storeWF (services : List Service) (st : Store)
    (cid sid start : Nat) (paid : Bool) (pm notes : String) (h : StoreWF st) :
    StoreWF (Scheduler.book services st cid sid start paid pm notes).2 := by
  rcases book_cases services st cid sid start paid pm notes with ⟨hst, -⟩ | ⟨v, -, -, heq⟩
  · rw [hst]; exact h
  · rw [heq]
    refine ⟨Nat.le_succ_of_le h.1, ?_⟩
    intro a ha
    simp only [List.mem_append, List.mem_singleton] at ha
    rcases ha with ha | ha
    · have hb := h.2 a ha
      exact ⟨hb.1, Nat.lt_succ_of_lt hb.2⟩
    · subst ha
      exact ⟨h.1, Nat.lt_succ_self _⟩

theorem toggle_preserves_storeWF (st : Store) (x : Nat) (h : StoreWF st) :
    StoreWF (Scheduler.toggle_paid st x).2 := by
  rcases toggle_store_shape st x with hst | ⟨v, hst⟩
  · rw [hst]; exact h
  · rw [hst]
    refine ⟨h.1, ?_⟩
    intro a ha
    obtain ⟨b, hb, hid, -, -⟩ := mem_map_setPaid ha
    rw [hid]
    exact h.2 b hb

theorem delete_preserves_storeWF (st : Store) (x : Nat) (h : StoreWF st) :
    StoreWF (Scheduler.delete st x).2 := by
  rcases delete_store_shape st x with hst | hst
  · rw [hst]; exact h
  · rw [hst]
    refine ⟨h.1, ?_⟩
    intro a ha
    exact h.2 a (List.mem_filter.1 ha).1

theorem reachable_storeWF (s : SysState) (h : Reachable s) : StoreWF s.store := by
  induction h with
  | init => exact storeWF_emptyStore
  | step hprev hstep ih =>
      cases hstep with
      | bookStep cid sid start paid pm notes =>
          exact book_preserves_storeWF _ _ cid sid start paid pm notes ih
      | toggleStep x => exact toggle_preserves_storeWF _ x ih
      | deleteApptStep x => exact delete_preserves_storeWF _ x ih
      | createClientStep c hfresh hpos => exact ih
      | createServiceStep v hfresh hpos => exact ih
      | clientDeleteStep x => exact ih
      | serviceDeleteStep x => exact ih
      | updateClientsStep f hf => exact ih
      | updateServicesStep g hg => exact ih

theorem reachable_serviceIntegrity (s : SysState) (h : Reachable s) :
    ServiceIntegrity s := by
  induction h with
  | init =>
      intro a ha
      cases ha
  | step hprev hstep ih =>
      rename_i src tgt
      cases hstep with
      | bookStep cid sid start paid pm notes =>
          rcases book_cases src.services src.store cid sid start paid pm notes with
            ⟨hst, -⟩ | ⟨v, hv, -, heq⟩
          · intro a ha
            rw [hst] at ha
            exact ih a ha
          · intro a ha
            rw [heq] at ha
            simp only [List.mem_append, List.mem_singleton] at ha
            rcases ha with ha | ha
            · exact ih a ha
            · subst ha
              refine ⟨v, List.mem_of_find?_eq_some hv, ?_⟩
              have hvp := List.find?_some hv
              simpa using hvp
      | toggleStep x =>
          intro a ha
          rcases toggle_store_shape src.store x with hst | ⟨v, hst⟩
          · rw [hst] at ha
            exact ih a ha
          · rw [hst] at ha
            obtain ⟨b, hb, -, -, hsid⟩ := mem_map_setPaid ha
            rw [hsid]
            exact ih b hb
      | deleteApptStep x =>
          intro a ha
          rcases delete_store_shape src.store x with hst | hst
          · rw [hst] at ha
            exact ih a ha
          · rw [hst] at ha
            exact ih a (List.mem_filter.1 ha).1
      | createClientStep c hfresh hpos => exact ih
      | createServiceStep v hfresh hpos =>
          intro a ha
          obtain ⟨w, hw, hwid⟩ := ih a ha
          exact ⟨w, List.mem_append_left _ hw, hwid⟩
      | clientDeleteStep x => exact ih
      | serviceDeleteStep x =>
          intro a ha
          obtain ⟨w, hw, hwid⟩ := ih a ha
          rcases serviceManager_delete_shape src.store src.services x with hsv | ⟨hnone, hsv⟩
          · rw [hsv]
            exact ⟨w, hw, hwid⟩
          · rw [hsv]
            refine ⟨w, List.mem_filter.2 ⟨hw, ?_⟩, hwid⟩
            have hax : a.service_id ≠ x := hnone a ha
            simp only [Bool.not_eq_true', beq_eq_false_iff_ne, ne_eq]
            rw [hwid]
            exact hax
      | updateClientsStep f hf => exact ih
      | updateServicesStep g hg =>
          intro a ha
          obtain ⟨w, hw, hwid⟩ := ih a ha
          exact ⟨g w, List.mem_map_of_mem g hw, by rw [hg w, hwid]⟩

/-- Claim C7: exclusion parameter semantics.  In every reachable state of
the application, for every id x of a stored appointment, the availability
check excluding x returns true exactly when every stored appointment
overlapping the queried window is the row with id x itself; in particular
it returns false as soon as some appointment with a different id overlaps.
(Reachability supplies the fact that stored ids are nonzero, which the
truthiness test of the source relies on.) -/
theorem C7_exclusion_semantics (sys : SysState) (hreach : Reachable sys)
    (x s e : Nat) (hx : ∃ a ∈ sys.store.appointments, a.id = x) :
    Scheduler.is_time_available sys.store s e (some x) = true ↔
      ∀ a ∈ sys.store.appointments, s < a.end_time ∧ a.start_time < e → a.id = x := by
  obtain ⟨a₀, ha₀, hax⟩ := hx
  have hwf := reachable_storeWF sys hreach
  have hx0 : x ≠ 0 := by
    have h₁ := (hwf.2 a₀ ha₀).1
    omega
  rw [is_time_available_some_iff sys.store s e x hx0]
  constructor
  · intro h a ha hover
    exact h a ha ((conflictsWith_iff a s e).2 hover)
  · intro h a ha hc
    exact h a ha ((conflictsWith_iff a s e).1 hc)

/-- A small reachable demonstration state: one service in the catalog and
one appointment booked with it (the client column is never validated by
book, so no client row is needed to reach this state). -/
def demoSys : SysState :=
  SysState.mk [] [Service.mk 1 "Cut" 35 30 0]
    (Scheduler.book [Service.mk 1 "Cut" 35 30 0] emptyStore 1 1 600 false "" "").2

theorem demoSys_reachable : Reachable demoSys := by
  have h₁ : Step initState (SysState.mk [] [Service.mk 1 "Cut" 35 30 0] emptyStore) := by
    have hstep := Step.createServiceStep initState (Service.mk 1 "Cut" 35 30 0)
      (by intro v hv; cases hv) (by decide)
    exact hstep
  have h₂ : Step (SysState.mk [] [Service.mk 1 "Cut" 35 30 0] emptyStore) demoSys := by
    have hstep := Step.bookStep (SysState.mk [] [Service.mk 1 "Cut" 35 30 0] emptyStore)
      1 1 600 false "" ""
    exact hstep
  exact Reachable.step (Reachable.step Reachable.init h₁) h₂

/-- Concrete instance of claim C7: in the reachable state holding the one
appointment from 10:00 to 10:30 with id 1, excluding id 1 makes the check
of the window from 10:10 to 10:50 equivalent to every overlapping stored
row being row 1 (and both sides hold, so the check returns true). -/
theorem C7_exclusion_semantics_witness :
    (∃ a ∈ demoSys.store.appointments, a.id = 1) ∧
    (Scheduler.is_time_available demoSys.store 610 650 (some 1) = true ↔
      ∀ a ∈ demoSys.store.appointments, 610 < a.end_time ∧ a.start_time < 650 → a.id = 1) :=
  ⟨by decide, C7_exclusion_semantics demoSys demoSys_reachable 1 610 650 (by decide)⟩

/-! ## Lemmas about toggle_paid -/

theorem find?_map_setPaid (l : List Appointment) (x : Nat) (v : Bool) :
    List.find? (fun a => a.id == x)
        (l.map (fun b => if b.id == x then { b with paid := v } else b)) =
      (List.find? (fun a => a.id == x) l).map
        (fun b => if b.id == x then { b with paid := v } else b) := by
  rw [List.find?_map]
  have hcomp : ((fun a => a.id == x) ∘
      (fun b => if b.id == x then { b with paid := v } else b)) =
      (fun a : Appointment => a.id == x) := by
    funext b
    by_cases h : (b.id == x) = true
    · rw [Function.comp_apply, if_pos h]
    · rw [Function.comp_apply, if_neg h]
  rw [hcomp]

theorem toggle_paid_spec (st : Store) (x : Nat) (row : Appointment)
    (hfind : st.appointments.find? (fun a => a.id == x) = some row) :
    Scheduler.toggle_paid st x =
      (Except.ok (!row.paid),
       Store.mk (st.appointments.map
         (fun b => if b.id == x then { b with paid := !row.paid } else b)) st.nextId) := by
  unfold Scheduler.toggle_paid
  rw [hfind]

/-- Claim C8: toggle involution.  For every appointment id stored with paid
flag p, the first toggle_paid call returns NOT p and stores NOT p, and the
second call returns p and stores p again: two toggles restore the original
stored value, and each return value equals the value stored immediately
after that call. -/
theorem C8_toggle_involution (st : Store) (x : Nat) (p : Bool)
    (h : Scheduler.get_paid st x = some p) :
    (Scheduler.toggle_paid st x).1 = Except.ok (!p) ∧
    Scheduler.get_paid (Scheduler.toggle_paid st x).2 x = some (!p) ∧
    (Scheduler.toggle_paid (Scheduler.toggle_paid st x).2 x).1 = Except.ok p ∧
    Scheduler.get_paid (Scheduler.toggle_paid (Scheduler.toggle_paid st x).2 x).2 x =
      some p := by
  obtain ⟨row, hfind, hp⟩ : ∃ row, st.appointments.find? (fun a => a.id == x) = some row ∧
      row.paid = p := by
    unfold Scheduler.get_paid at h
    cases hf : st.appointments.find? (fun a => a.id == x) with
    | none => rw [hf] at h; cases h
    | some row =>
        rw [hf] at h
        refine ⟨row, rfl, ?_⟩
        injection h
  have hrow : (row.id == x) = true := by simpa using List.find?_some hfind
  have ht₁ := toggle_paid_spec st x row hfind
  have hfind₁ : ((Scheduler.toggle_paid st x).2).appointments.find? (fun a => a.id == x) =
      some { row with paid := !row.paid } := by
    rw [ht₁]
    show (st.appointments.map
      (fun b => if b.id == x then { b with paid := !row.paid } else b)).find?
        (fun a => a.id == x) = some { row with paid := !row.paid }
    rw [find?_map_setPaid, hfind]
    show some (if row.id == x then { row with paid := !row.paid } else row) =
      some { row with paid := !row.paid }
    rw [if_pos hrow]
  have ht₂ := toggle_paid_spec (Scheduler.toggle_paid st x).2 x
    { row with paid := !row.paid } hfind₁
  have hfind₂ : ((Scheduler.toggle_paid (Scheduler.toggle_paid st x).2 x).2).appointments.find?
      (fun a => a.id == x) = some { row with paid := !(!row.paid) } := by
    rw [ht₂]
    show (((Scheduler.toggle_paid st x).2).appointments.map
      (fun b => if b.id == x then { b with paid := !(!row.paid) } else b)).find?
        (fun a => a.id == x) = some { row with paid := !(!row.paid) }
    rw [find?_map_setPaid, hfind₁]
    have hrow₁ : ((({ row with paid := !row.paid } : Appointment)).id == x) = true := hrow
    rw [Option.map_some', if_pos hrow₁]
  refine ⟨?_, ?_, ?_, ?_⟩
  · rw [ht₁, hp]
  · unfold Scheduler.get_paid
    rw [hfind₁, hp]
    rfl
  · rw [ht₂]
    show Except.ok (!(!row.paid)) = Except.ok p
    rw [Bool.not_not, hp]
  · unfold Scheduler.get_paid
    rw [hfind₂]
    show some (!(!row.paid)) = some p
    rw [Bool.not_not, hp]

/-- Concrete instance of claim C8: the freshly booked appointment is
unpaid; toggling returns and stores true, toggling again returns and
stores false. -/
theorem C8_toggle_involution_witness :
    Scheduler.get_paid
      (Scheduler.book [Service.mk 1 "Cut" 35 30 0] emptyStore 1 1 600 false "" "").2 1 =
      some false ∧
    ((Scheduler.toggle_paid
      (Scheduler.book [Service.mk 1 "Cut" 35 30 0] emptyStore 1 1 600 false "" "").2 1).1 =
      Except.ok true ∧
     Scheduler.get_paid
      (Scheduler.toggle_paid
        (Scheduler.book [Service.mk 1 "Cut" 35 30 0] emptyStore 1 1 600 false "" "").2 1).2 1 =
      some true ∧
     (Scheduler.toggle_paid
       (Scheduler.toggle_paid
         (Scheduler.book [Service.mk 1 "Cut" 35 30 0] emptyStore 1 1 600 false "" "").2 1).2
       1).1 = Except.ok false ∧
     Scheduler.get_paid
       (Scheduler.toggle_paid
         (Scheduler.toggle_paid
           (Scheduler.book [Service.mk 1 "Cut" 35 30 0] emptyStore 1 1 600 false "" "").2
           1).2 1).2 1 = some false) :=
  ⟨rfl,
   C8_toggle_involution
     (Scheduler.book [Service.mk 1 "Cut" 35 30 0] emptyStore 1 1 600 false "" "").2 1 false
     rfl⟩

/-! ## Lemmas about delete and the joined projections -/

theorem joinRow_appointment_id {clients : List Client} {services : List Service}
    {a : Appointment} {w : Scheduler.AppointmentView}
    (h : Scheduler.joinRow clients services a = some w) : w.appointment_id = a.id := by
  unfold Scheduler.joinRow at h
  split at h
  · injection h with h₁
    rw [← h₁]
  · cases h

theorem delete_found (st : Store) (x : Nat)
    (h : st.appointments.any (fun a => a.id == x) = true) :
    Scheduler.delete st x =
      (Except.ok (),
       Store.mk (st.appointments.filter (fun a => !(a.id == x))) st.nextId) := by
  unfold Scheduler.delete
  rw [if_pos h]

theorem delete_missing (st : Store) (x : Nat)
    (h : st.appointments.any (fun a => a.id == x) = false) :
    Scheduler.delete st x =
      (Except.error (SchedulerErr.invalidAppointment
        ("Appointment with ID " ++ toString x ++ " does not exist")), st) := by
  unfold Scheduler.delete
  rw [if_neg (by simp [h])]

/-- Claim C9: delete removes permanently.  When the id is present, delete
succeeds, a subsequent get_appointment of that id returns the absent value
(not an error), and no day listing contains a row with that id any more;
when the id is absent, delete fails with the not-found
InvalidAppointmentError and leaves the store unchanged. -/
theorem C9_delete_removes (clients : List Client) (services : List Service)
    (st : Store) (x : Nat) :
    (st.appointments.any (fun a => a.id == x) = true →
      (Scheduler.delete st x).1 = Except.ok () ∧
      Scheduler.get_appointment clients services (Scheduler.delete st x).2 x = none ∧
      ∀ d, (Scheduler.list_for_date clients services (Scheduler.delete st x).2 d).all
        (fun w => w.appointment_id != x) = true) ∧
    (st.appointments.any (fun a => a.id == x) = false →
      Scheduler.delete st x =
        (Except.error (SchedulerErr.invalidAppointment
          ("Appointment with ID " ++ toString x ++ " does not exist")), st)) := by
  constructor
  · intro hex
    have hdel := delete_found st x hex
    have hmem : ∀ a ∈ (Scheduler.delete st x).2.appointments, (a.id == x) = false := by
      rw [hdel]
      intro a ha
      have hfa := (List.mem_filter.1 ha).2
      simpa using hfa
    refine ⟨by rw [hdel], ?_, ?_⟩
    · unfold Scheduler.get_appointment
      have hfind : (Scheduler.delete st x).2.appointments.find? (fun a => a.id == x) =
          none := by
        rw [List.find?_eq_none]
        intro a ha
        simp [hmem a ha]
      rw [hfind]
      rfl
    · intro d
      rw [List.all_eq_true]
      intro w hw
      unfold Scheduler.list_for_date at hw
      obtain ⟨a, ha, hja⟩ := List.mem_filterMap.1 hw
      rw [List.mem_insertionSort] at ha
      have haid : (a.id == x) = false := hmem a (List.mem_filter.1 ha).1
      have hwa : w.appointment_id = a.id := joinRow_appointment_id hja
      rw [hwa]
      show (!(a.id == x)) = true
      rw [haid]
      rfl
  · intro hnone
    exact delete_missing st x hnone

/-- Concrete instance of claim C9: deleting the one booked appointment
succeeds, the appointment can no longer be fetched, and the listing of its
day is free of its id. -/
theorem C9_delete_removes_witness :
    (Scheduler.book [Service.mk 1 "Cut" 35 30 0] emptyStore 1 1 600
        false "" "").2.appointments.any (fun a => a.id == 1) = true ∧
    (Scheduler.delete
      (Scheduler.book [Service.mk 1 "Cut" 35 30 0] emptyStore 1 1 600 false "" "").2 1).1 =
      Except.ok () ∧
    Scheduler.get_appointment [Client.mk 1 "Bob Smith" ""] [Service.mk 1 "Cut" 35 30 0]
      (Scheduler.delete
        (Scheduler.book [Service.mk 1 "Cut" 35 30 0] emptyStore 1 1 600 false "" "").2 1).2
      1 = none ∧
    (Scheduler.list_for_date [Client.mk 1 "Bob Smith" ""] [Service.mk 1 "Cut" 35 30 0]
      (Scheduler.delete
        (Scheduler.book [Service.mk 1 "Cut" 35 30 0] emptyStore 1 1 600 false "" "").2 1).2
      0).all (fun w => w.appointment_id != 1) = true := by
  have h := (C9_delete_removes [Client.mk 1 "Bob Smith" ""] [Service.mk 1 "Cut" 35 30 0]
    (Scheduler.book [Service.mk 1 "Cut" 35 30 0] emptyStore 1 1 600 false "" "").2 1).1
    (by rfl)
  exact ⟨rfl, h.1, h.2.1, h.2.2 0⟩

/-! ## Referential integrity of the two foreign keys -/

theorem client_delete_refused (st : Store) (clients : List Client) (cid : Nat)
    (h : ∃ a ∈ st.appointments, a.client_id = cid) :
    ∃ msg, ClientService.delete st clients cid =
      (Except.error (ClientErr.clientError msg), clients) := by
  obtain ⟨a, ha, hac⟩ := h
  have hpos : (st.appointments.filter (fun b => b.client_id == cid)).length > 0 :=
    List.length_pos_of_mem (List.mem_filter.2 ⟨ha, by simp [hac]⟩)
  refine ⟨"Cannot delete client with existing appointments. This client has " ++
    toString (st.appointments.filter (fun b => b.client_id == cid)).length ++
    " appointment(s).", ?_⟩
  unfold ClientService.delete
  rw [if_pos hpos]

theorem service_delete_refused (st : Store) (services : List Service) (sid : Nat)
    (h : ∃ a ∈ st.appointments, a.service_id = sid) :
    ∃ msg, ServiceManager.delete st services sid =
      (Except.error (ServiceErr.serviceError msg), services) := by
  obtain ⟨a, ha, hac⟩ := h
  have hpos : (st.appointments.filter (fun b => b.service_id == sid)).length > 0 :=
    List.length_pos_of_mem (List.mem_filter.2 ⟨ha, by simp [hac]⟩)
  refine ⟨"Cannot delete service with existing appointments. This service has " ++
    toString (st.appointments.filter (fun b => b.service_id == sid)).length ++
    " appointment(s).", ?_⟩
  unfold ServiceManager.delete
  rw [if_pos hpos]

/-- Counterexample to claim C10: book never validates the client id and the
schema of src/data/db.py declares no FOREIGN KEY constraints, so a booking
for a client id with no client row succeeds; the resulting reachable state
stores an appointment whose client_id resolves to nothing, and both joined
reads silently drop it (get_appointment returns none, the day listing is
empty) even though the appointment is in the store. -/
theorem C10_counterexample :
    Reachable (SysState.mk [] [Service.mk 1 "Cut" 35 30 0]
      (Scheduler.book [Service.mk 1 "Cut" 35 30 0] emptyStore 7 1 600 false "" "").2) ∧
    (Scheduler.book [Service.mk 1 "Cut" 35 30 0] emptyStore 7 1 600 false "" "").1 =
      Except.ok 1 ∧
    Appointment.mk 1 7 1 600 630 false "" "" ∈
      (Scheduler.book [Service.mk 1 "Cut" 35 30 0] emptyStore 7 1 600
        false "" "").2.appointments ∧
    Scheduler.get_appointment [] [Service.mk 1 "Cut" 35 30 0]
      (Scheduler.book [Service.mk 1 "Cut" 35 30 0] emptyStore 7 1 600 false "" "").2 1 =
      none ∧
    Scheduler.list_for_date [] [Service.mk 1 "Cut" 35 30 0]
      (Scheduler.book [Service.mk 1 "Cut" 35 30 0] emptyStore 7 1 600 false "" "").2 0 =
      [] := by
  refine ⟨?_, rfl, by decide, rfl, rfl⟩
  have h₁ := Step.createServiceStep initState (Service.mk 1 "Cut" 35 30 0)
    (by intro v hv; cases hv) (by decide)
  have h₂ := Step.bookStep (SysState.mk [] [Service.mk 1 "Cut" 35 30 0] emptyStore)
    7 1 600 false "" ""
  exact Reachable.step (Reachable.step Reachable.init h₁) h₂

/-- Claim C10 as amended: deleting a client or a service is indeed refused
with a ClientError or ServiceError whenever an appointment references it;
since book validates the service id, every stored appointment of every
reachable state references an existing service row; but the client id is
never validated at booking time, so the client half of the claimed
referential integrity fails (see the counterexample) and only the service
half holds. -/
theorem C10_referential_integrity_amended (sys : SysState) (hreach : Reachable sys) :
    (∀ cid, (∃ a ∈ sys.store.appointments, a.client_id = cid) →
      ∃ msg, ClientService.delete sys.store sys.clients cid =
        (Except.error (ClientErr.clientError msg), sys.clients)) ∧
    (∀ sid, (∃ a ∈ sys.store.appointments, a.service_id = sid) →
      ∃ msg, ServiceManager.delete sys.store sys.services sid =
        (Except.error (ServiceErr.serviceError msg), sys.services)) ∧
    (∀ a ∈ sys.store.appointments, ∃ v ∈ sys.services, v.id = a.service_id) := by
  refine ⟨?_, ?_, reachable_serviceIntegrity sys hreach⟩
  · intro cid h
    exact client_delete_refused sys.store sys.clients cid h
  · intro sid h
    exact service_delete_refused sys.store sys.services sid h

/-- Concrete instance of the amended claim C10: in the reachable demo state
neither the referenced client id nor the referenced service id can be
deleted, and the stored appointment resolves to a service row. -/
theorem C10_referential_integrity_amended_witness :
    (∃ a ∈ demoSys.store.appointments, a.client_id = 1) ∧
    (∃ msg, ClientService.delete demoSys.store demoSys.clients 1 =
      (Except.error (ClientErr.clientError msg), demoSys.clients)) ∧
    (∃ a ∈ demoSys.store.appointments, a.service_id = 1) ∧
    (∃ msg, ServiceManager.delete demoSys.store demoSys.services 1 =
      (Except.error (ServiceErr.serviceError msg), demoSys.services)) ∧
    (∀ a ∈ demoSys.store.appointments, ∃ v ∈ demoSys.services, v.id = a.service_id) := by
  have h := C10_referential_integrity_amended demoSys demoSys_reachable
  exact ⟨by decide, h.1 1 (by decide), by decide, h.2.1 1 (by decide), h.2.2⟩
